import Mathlib

/-!
# Verification of the cred-point CPE engine against its specification

Shallow embedding of `src/verification_engine.py` and
`src/recommendation_engine.py` (repository `Sravya0605/cred-point`).

Python strings are modelled by `String`; `str.lower()` is modelled by the
per-character ASCII case mapping `Char.toLower` (every keyword, provider
name and rule key compared case-insensitively in the source is ASCII).
Python's substring operator `needle in hay` is modelled by `strContains`.
Numeric CPE values are modelled by `ℚ` (the spec calls them positive
rationals; the comparisons in the source are exact at these magnitudes).
The dynamically-typed `Dict[str, Any]` input and the `try/except` of
`verify_activity` are modelled separately (`PyVal`, `verify_activity_try`)
for the error-handling claims.  Interpolated numbers inside note strings
use `ℚ`'s printer rather than Python's float formatting; no claim depends
on that rendering, only on whether notes are empty.
-/

/-- Python `str.lower()` on the underlying character list (ASCII case map). -/
def pyLower (s : String) : String :=
  ⟨s.data.map Char.toLower⟩

/-- Python `str.upper()` on the underlying character list (ASCII case map). -/
def pyUpper (s : String) : String :=
  ⟨s.data.map Char.toUpper⟩

/-- `isPrefixL n h`: the character list `n` is a prefix of `h`. -/
def isPrefixL : List Char → List Char → Bool
  | [], _ => true
  | _ :: _, [] => false
  | a :: as, b :: bs => a == b && isPrefixL as bs

/-- `containsL n h`: `n` occurs as a contiguous sublist of `h`. -/
def containsL (needle : List Char) : List Char → Bool
  | [] => isPrefixL needle []
  | b :: bs => isPrefixL needle (b :: bs) || containsL needle bs

/-- Python's substring containment `needle in hay` on strings. -/
def strContains (hay needle : String) : Bool :=
  containsL needle.data hay.data

/-- Python `any(word in description for word in words)`. -/
def word_in_any (description : String) (words : List String) : Bool :=
  words.any (fun w => strContains description w)

/-- `CPEVerificationEngine._classify_activity_type` (verification_engine.py
lines 115-132): lower-cases the description and returns the first category,
in source order, one of whose keywords occurs as a substring; `"self-study"`
when none does. -/
def classify_activity_type (description : String) : String :=
  let d := pyLower description
  if word_in_any d ["webinar", "seminar", "presentation"] then "webinar"
  else if word_in_any d ["training", "workshop", "bootcamp"] then "training"
  else if word_in_any d ["conference", "symposium", "summit"] then "conference"
  else if word_in_any d ["course", "class", "curriculum"] then "course"
  else if word_in_any d ["certification", "exam", "test"] then "certification"
  else if word_in_any d ["volunteer", "community", "mentor"] then "volunteer"
  else "self-study"

/-- `CPEVerificationEngine.cpe_rules` (verification_engine.py lines 25-62).
Each rule is a single point value per (authority, activity type).
The first key is the source's literal byte sequence `ISC` `U+00C2` `U+00B2`
(a mojibake of `ISC²`): it is five characters, while the authority string
used everywhere else in the repository (forms.py, models.py) is the
four-character `ISC²`. -/
def cpe_rules : List (String × List (String × ℚ)) :=
  [("ISCÂ²",
    [("webinar", 1), ("training", 8), ("conference", 8), ("self-study", 1),
     ("course", 4), ("certification", 30), ("volunteer", 5)]),
   ("EC-Council",
    [("webinar", 1), ("training", 20), ("conference", 20), ("self-study", 2),
     ("course", 10), ("certification", 60), ("volunteer", 10)]),
   ("CompTIA",
    [("webinar", 1/2), ("training", 10), ("conference", 10), ("self-study", 1),
     ("course", 5), ("certification", 30), ("volunteer", 5)]),
   ("Offensive Security",
    [("webinar", 1), ("training", 40), ("conference", 8), ("self-study", 2),
     ("course", 20), ("certification", 40), ("volunteer", 4)])]

/-- The source's guarded dict access: `authority in self.cpe_rules and
activity_type in self.cpe_rules[authority]`, then
`self.cpe_rules[authority][activity_type]`. -/
def lookupRule (authority activity_type : String) : Option ℚ :=
  match cpe_rules.lookup authority with
  | some table => table.lookup activity_type
  | none => none

/-- The activity record handed to `verify_activity` by routes.py lines
296-302 (well-typed case): `description`, `authority`, `cpe_value`,
`proof_file` (a filename or Python `None`); the `activity_type` key is
never read by the engine. -/
structure ActivityData where
  description : String
  authority : String
  cpe_value : ℚ
  proof_file : Option String
deriving DecidableEq

/-- The dict returned by `_attempt_web_verification` and the provider
helpers: keys `verified`, `verification_method`, `verification_notes`. -/
structure WebResult where
  verified : Bool
  verification_method : String
  verification_notes : String
deriving DecidableEq

/-- The dict returned by `_verify_proof_file`: keys `valid`, `notes`. -/
structure FileResult where
  valid : Bool
  notes : String
deriving DecidableEq

/-- The verdict dict built by `verify_activity`; `file_verified` is only
added when a proof file is present, hence `Option Bool`. -/
structure VerificationResult where
  verified : Bool
  verification_method : String
  suggested_cpe_value : ℚ
  verification_notes : String
  authority_rules_applied : Bool
  file_verified : Option Bool
deriving DecidableEq

/-- `_verify_sans_activity` (verification_engine.py lines 161-167). -/
def verify_sans_activity (_activity_data : ActivityData) : WebResult :=
  ⟨true, "provider_recognition",
   "SANS is a recognized premium cybersecurity training provider"⟩

/-- `_verify_coursera_activity` (lines 169-175). -/
def verify_coursera_activity (_activity_data : ActivityData) : WebResult :=
  ⟨true, "provider_recognition",
   "Coursera is a recognized online education platform"⟩

/-- `_verify_udemy_activity` (lines 177-183). -/
def verify_udemy_activity (_activity_data : ActivityData) : WebResult :=
  ⟨true, "provider_recognition",
   "Udemy is a recognized online learning platform"⟩

/-- `_verify_cybrary_activity` (lines 185-191). -/
def verify_cybrary_activity (_activity_data : ActivityData) : WebResult :=
  ⟨true, "provider_recognition",
   "Cybrary is a recognized cybersecurity training platform"⟩

/-- `_attempt_web_verification` (lines 134-159) for a well-typed input.
Nothing inside its `try` can raise on a string description, so the inner
`except` branch is unreachable here (the malformed-input case is modelled
by `attempt_web_verification_dynE` below). -/
def attempt_web_verification (activity_data : ActivityData) : WebResult :=
  let result : WebResult := ⟨false, "manual", ""⟩
  let description := pyLower activity_data.description
  if strContains description "sans" then
    verify_sans_activity activity_data
  else if strContains description "coursera" then
    verify_coursera_activity activity_data
  else if strContains description "udemy" then
    verify_udemy_activity activity_data
  else if strContains description "cybrary" then
    verify_cybrary_activity activity_data
  else if ["pluralsight", "linkedin learning", "edx"].any
      (fun provider => strContains description provider) then
    { result with verified := true, verification_method := "known_provider",
                  verification_notes := "Recognized professional training provider" }
  else result

/-- `_verify_proof_file` (lines 193-208) for a string path: valid iff the
path is truthy and its lower-casing contains one of the accepted
extensions. -/
def verify_proof_file (file_path : String) : FileResult :=
  if file_path ≠ "" &&
      [".pdf", ".jpg", ".jpeg", ".png"].any
        (fun ext => strContains (pyLower file_path) ext) then
    ⟨true, "Valid proof document uploaded"⟩
  else
    ⟨false, "Invalid or missing proof document"⟩

/-- `verify_activity` (verification_engine.py lines 64-113) for a
well-typed input, on which nothing in the `try` body can raise: the
verdict dict is initialised, the authority rule (if any) overwrites the
suggested value and possibly verifies, a recognized provider overwrites
`verified`/`verification_method`/`verification_notes` via `dict.update`,
and a truthy proof file appends file notes and a `file_verified` key.
The exceptional path is modelled by `verify_activity_dyn` below. -/
def verify_activity (activity_data : ActivityData) : VerificationResult :=
  let init : VerificationResult :=
    ⟨false, "manual", activity_data.cpe_value, "", false, none⟩
  let description := pyLower activity_data.description
  let authority := activity_data.authority
  let cpe_value := activity_data.cpe_value
  let activity_type := classify_activity_type description
  let r1 : VerificationResult :=
    match lookupRule authority activity_type with
    | some suggested_value =>
      let base : VerificationResult :=
        { init with
            suggested_cpe_value := suggested_value,
            authority_rules_applied := true,
            verification_notes :=
              "Applied " ++ authority ++ " rules for " ++ activity_type ++
                " activities" }
      if |cpe_value - suggested_value| ≤ suggested_value * (1/2) then
        { base with verified := true, verification_method := "authority_rules" }
      else
        { base with
            verification_notes :=
              base.verification_notes ++ ". User entered " ++
                toString cpe_value ++ ", suggested " ++
                toString suggested_value }
    | none => init
  let web := attempt_web_verification activity_data
  let r2 : VerificationResult :=
    if web.verified then
      { r1 with
          verified := web.verified,
          verification_method := web.verification_method,
          verification_notes := web.verification_notes }
    else r1
  match activity_data.proof_file with
  | some file_path =>
    if file_path ≠ "" then
      let file_verification := verify_proof_file file_path
      { r2 with
          file_verified := some file_verification.valid,
          verification_notes :=
            if file_verification.notes ≠ "" then
              r2.verification_notes ++ ". File: " ++ file_verification.notes
            else r2.verification_notes }
    else r2
  | none => r2

/-- The providers whose recognition drives `_attempt_web_verification`:
its result is `verified` exactly when one of these occurs in the
lower-cased description (proved in `web_verified_eq_provider_recognized`). -/
def provider_recognized (description : String) : Bool :=
  ["sans", "coursera", "udemy", "cybrary", "pluralsight",
   "linkedin learning", "edx"].any
    (fun provider => strContains (pyLower description) provider)

/-- Python truthiness of the optional `proof_file` value handed in by
routes.py: `None` and the empty string are falsy. -/
def pyTruthyFile : Option String → Bool
  | none => false
  | some s => s ≠ ""

/-! ## Staged view of `verify_activity`

`verify_activity` threads one result dict through three phases (authority
rules, web verification, proof file).  The three stage functions below are
the same computation split at the phase boundaries; `verify_activity_eq_stages`
checks (definitionally) that their composition is `verify_activity`. -/

/-- Phase 1 of `verify_activity` (lines 66-95): initial verdict plus the
authority-rule branch. -/
def rules_stage (a : ActivityData) : VerificationResult :=
  let init : VerificationResult :=
    ⟨false, "manual", a.cpe_value, "", false, none⟩
  let authority := a.authority
  let activity_type := classify_activity_type (pyLower a.description)
  match lookupRule authority activity_type with
  | some suggested_value =>
    let base : VerificationResult :=
      { init with
          suggested_cpe_value := suggested_value,
          authority_rules_applied := true,
          verification_notes :=
            "Applied " ++ authority ++ " rules for " ++ activity_type ++
              " activities" }
    if |a.cpe_value - suggested_value| ≤ suggested_value * (1/2) then
      { base with verified := true, verification_method := "authority_rules" }
    else
      { base with
          verification_notes :=
            base.verification_notes ++ ". User entered " ++
              toString a.cpe_value ++ ", suggested " ++
              toString suggested_value }
  | none => init

/-- Phase 2 (lines 97-100): `dict.update` with the web verification result
when that result is verified. -/
def web_stage (a : ActivityData) (r : VerificationResult) : VerificationResult :=
  let web := attempt_web_verification a
  if web.verified then
    { r with
        verified := web.verified,
        verification_method := web.verification_method,
        verification_notes := web.verification_notes }
  else r

/-- Phase 3 (lines 102-107): proof-file validation for a truthy
`proof_file`. -/
def file_stage (a : ActivityData) (r : VerificationResult) : VerificationResult :=
  match a.proof_file with
  | some file_path =>
    if file_path ≠ "" then
      let file_verification := verify_proof_file file_path
      { r with
          file_verified := some file_verification.valid,
          verification_notes :=
            if file_verification.notes ≠ "" then
              r.verification_notes ++ ". File: " ++ file_verification.notes
            else r.verification_notes }
    else r
  | none => r

/-! ## Spec-side classifier (for the refinement claim) -/

/-- The spec's ordered (category, keyword-set) list, in its stated
priority order. -/
def classifier_keywords : List (String × List String) :=
  [("webinar", ["webinar", "seminar", "presentation"]),
   ("training", ["training", "workshop", "bootcamp"]),
   ("conference", ["conference", "symposium", "summit"]),
   ("course", ["course", "class", "curriculum"]),
   ("certification", ["certification", "exam", "test"]),
   ("volunteer", ["volunteer", "community", "mentor"])]

/-- Modelled from the spec's words (§4.1): the first category in the fixed
priority order whose keyword set has at least one case-insensitive
substring hit in the description; `"self-study"` when none matches. -/
def classify_spec (description : String) : String :=
  match classifier_keywords.find?
      (fun p => p.2.any (fun w => strContains (pyLower description) w)) with
  | some p => p.1
  | none => "self-study"

/-! ## Dynamic (Python-typed) model of `verify_activity`

`verify_activity` takes a `Dict[str, Any]`; its outer `try/except` exists
for inputs whose values have the wrong type.  `PyVal` models such values;
an `Except` outcome models a raised exception.  Python mutates the result
dict in place, so a raise carries the partially mutated verdict with it. -/

/-- A dynamically-typed value in the input dict: a string, a number, or
`None`. -/
inductive PyVal where
  | pstr (s : String)
  | pnum (q : ℚ)
  | pnone
deriving DecidableEq

/-- Python truthiness of a `PyVal`. -/
def pyTruthy : PyVal → Bool
  | .pstr s => s ≠ ""
  | .pnum q => q ≠ 0
  | .pnone => false

/-- Python `str(value)`, as used by f-string interpolation. -/
def pyValStr : PyVal → String
  | .pstr s => s
  | .pnum q => toString q
  | .pnone => "None"

/-- The input dict of the dynamic model: every key may be absent
(`dict.get` supplies the default). -/
structure PyActivityData where
  description : Option PyVal
  authority : Option PyVal
  cpe_value : Option PyVal
  proof_file : Option PyVal
deriving DecidableEq

/-- `value.lower()`: succeeds on a string, raises `AttributeError` on
anything else. -/
def pyLowerE : PyVal → Except String String
  | .pstr s => .ok (pyLower s)
  | _ => .error "AttributeError: lower"

/-- `abs(cpe_value - suggested_value) <= suggested_value * 0.5` for the
dynamically-typed `cpe_value`: arithmetic on a non-number raises
`TypeError`. -/
def pyWithinHalfE : PyVal → ℚ → Except String Bool
  | .pnum q, v => .ok (decide (|q - v| ≤ v * (1/2)))
  | _, _ => .error "TypeError: unsupported operand"

/-- `authority in self.cpe_rules and activity_type in
self.cpe_rules[authority]` for a dynamic key: a non-string key is simply
not found. -/
def lookupRuleV : PyVal → String → Option ℚ
  | .pstr s, t => lookupRule s t
  | _, _ => none

/-- The verdict dict of the dynamic model: `suggested_cpe_value` holds
whatever value the input dict held for `cpe_value` (the initial dict
stores it unexamined). -/
structure PyVerificationResult where
  verified : Bool
  verification_method : String
  suggested_cpe_value : PyVal
  verification_notes : String
  authority_rules_applied : Bool
  file_verified : Option Bool
deriving DecidableEq

/-- `_attempt_web_verification` on the dynamic input.  The
`activity_data.get('description', '').lower()` on line 138 sits outside
the helper's `try`, so a non-string description raises out of the helper;
everything inside the `try` is total string work, making the inner
`except` unreachable. -/
def attempt_web_verification_dynE (a : PyActivityData) : Except String WebResult :=
  match pyLowerE (a.description.getD (.pstr "")) with
  | .error e => .error e
  | .ok description =>
    .ok (if strContains description "sans" then
      ⟨true, "provider_recognition",
       "SANS is a recognized premium cybersecurity training provider"⟩
    else if strContains description "coursera" then
      ⟨true, "provider_recognition",
       "Coursera is a recognized online education platform"⟩
    else if strContains description "udemy" then
      ⟨true, "provider_recognition",
       "Udemy is a recognized online learning platform"⟩
    else if strContains description "cybrary" then
      ⟨true, "provider_recognition",
       "Cybrary is a recognized cybersecurity training platform"⟩
    else if ["pluralsight", "linkedin learning", "edx"].any
        (fun provider => strContains description provider) then
      ⟨true, "known_provider", "Recognized professional training provider"⟩
    else ⟨false, "manual", ""⟩)

/-- `_verify_proof_file` on a dynamic path: its own `try` catches the
`AttributeError` from `file_path.lower()` on a truthy non-string; a falsy
path short-circuits `file_path and any(...)` before `.lower()` is
reached. -/
def verify_proof_file_dyn : PyVal → FileResult
  | .pstr s =>
    if s ≠ "" &&
        [".pdf", ".jpg", ".jpeg", ".png"].any
          (fun ext => strContains (pyLower s) ext) then
      ⟨true, "Valid proof document uploaded"⟩
    else ⟨false, "Invalid or missing proof document"⟩
  | v =>
    if pyTruthy v then ⟨false, "File verification error: AttributeError"⟩
    else ⟨false, "Invalid or missing proof document"⟩

/-- The body of `verify_activity`'s `try` on the dynamic input.  An
`error (e, r)` outcome is a raised exception message `e` together with
the partially mutated verdict `r` at the raise point. -/
def verify_activity_try (a : PyActivityData) :
    Except (String × PyVerificationResult) PyVerificationResult :=
  let vr0 : PyVerificationResult :=
    ⟨false, "manual", a.cpe_value.getD (.pnum 1), "", false, none⟩
  match pyLowerE (a.description.getD (.pstr "")) with
  | .error e => .error (e, vr0)
  | .ok description =>
    let authority := a.authority.getD (.pstr "")
    let cpe_value := a.cpe_value.getD (.pnum 1)
    let activity_type := classify_activity_type description
    let step1 : Except (String × PyVerificationResult) PyVerificationResult :=
      match lookupRuleV authority activity_type with
      | some suggested_value =>
        let base : PyVerificationResult :=
          { vr0 with
              suggested_cpe_value := .pnum suggested_value,
              authority_rules_applied := true,
              verification_notes :=
                "Applied " ++ pyValStr authority ++ " rules for " ++
                  activity_type ++ " activities" }
        match pyWithinHalfE cpe_value suggested_value with
        | .error e => .error (e, base)
        | .ok true =>
          .ok { base with verified := true,
                          verification_method := "authority_rules" }
        | .ok false =>
          .ok { base with
                  verification_notes :=
                    base.verification_notes ++ ". User entered " ++
                      pyValStr cpe_value ++ ", suggested " ++
                      toString suggested_value }
      | none => .ok vr0
    match step1 with
    | .error er => .error er
    | .ok r1 =>
      match attempt_web_verification_dynE a with
      | .error e => .error (e, r1)
      | .ok web =>
        let r2 : PyVerificationResult :=
          if web.verified then
            { r1 with
                verified := web.verified,
                verification_method := web.verification_method,
                verification_notes := web.verification_notes }
          else r1
        let proof := a.proof_file.getD .pnone
        if pyTruthy proof then
          let file_verification := verify_proof_file_dyn proof
          .ok { r2 with
                  file_verified := some file_verification.valid,
                  verification_notes :=
                    if file_verification.notes ≠ "" then
                      r2.verification_notes ++ ". File: " ++
                        file_verification.notes
                    else r2.verification_notes }
        else .ok r2

/-- The full `verify_activity` on the dynamic input: the `try/except`
wrapper.  It always returns a verdict; a caught exception leaves the
partially mutated dict and overwrites its notes with the error note
(line 111). -/
def verify_activity_dyn (a : PyActivityData) : PyVerificationResult :=
  match verify_activity_try a with
  | .ok r => r
  | .error (e, r) =>
    { r with verification_notes := "Verification error: " ++ e }

/-! ## The recommendation engine (`src/recommendation_engine.py`) -/

/-- One recommendation dict; the Python key `type` is `rec_type` here. -/
structure Recommendation where
  title : String
  rec_type : String
  source : String
  cpe_value : ℚ
  url : String
  description : String
deriving DecidableEq

/-- `_get_eccouncil_recommendations` (lines 79-106): two fixed entries,
nothing in its `try` can raise. -/
def eccouncil_recommendations : List Recommendation :=
  [⟨"EC-Council Cyber Aces Training", "Online Training", "EC-Council", 40,
    "https://cyberaces.org", "Interactive cybersecurity training modules"⟩,
   ⟨"EC-Council Security Events", "Conference", "EC-Council", 8,
    "https://www.eccouncil.org/events/",
    "Professional cybersecurity conferences and workshops"⟩]

/-- `_get_comptia_recommendations` (lines 108-134). -/
def comptia_recommendations : List Recommendation :=
  [⟨"CompTIA Security+ Study Groups", "Study Group", "CompTIA", 2,
    "https://www.comptia.org/continuing-education",
    "Community-led study sessions and workshops"⟩,
   ⟨"CompTIA IT Fundamentals Webinars", "Webinar", "CompTIA", 1,
    "https://www.comptia.org/training/webinars",
    "Regular webinars on emerging IT topics"⟩]

/-- `_get_offsec_recommendations` (lines 136-162). -/
def offsec_recommendations : List Recommendation :=
  [⟨"OffSec Live Training Events", "Training", "Offensive Security", 8,
    "https://www.offensive-security.com/courses/",
    "Hands-on penetration testing training"⟩,
   ⟨"OSCP Practice Labs", "Self-Study", "Offensive Security", 4,
    "https://www.offensive-security.com/labs/",
    "Practical penetration testing exercises"⟩]

/-- `_get_general_security_recommendations` (lines 164-199): four fixed
entries, no I/O. -/
def general_security_recommendations : List Recommendation :=
  [⟨"SANS Security Training", "Training Course", "SANS", 32,
    "https://www.sans.org/cyber-security-courses/",
    "Industry-leading cybersecurity training courses"⟩,
   ⟨"NIST Cybersecurity Framework Webinars", "Webinar", "NIST", 1,
    "https://www.nist.gov/cyberframework",
    "Government cybersecurity framework training"⟩,
   ⟨"ISACA Cybersecurity Nexus", "Conference", "ISACA", 8,
    "https://www.isaca.org/training-and-events",
    "Professional governance and risk management"⟩,
   ⟨"DEF CON Security Conference", "Conference", "DEF CON", 16,
    "https://defcon.org",
    "Premier hacker convention with cutting-edge security research"⟩]

/-- `_get_fallback_recommendations` (lines 201-220): the fixed list used
when gathering fails. -/
def get_fallback_recommendations : List Recommendation :=
  [⟨"Cybersecurity Professional Development", "Self-Study", "General", 1,
    "https://www.cybersecurityeducation.org",
    "Comprehensive cybersecurity learning resources"⟩,
   ⟨"Industry Security Webinars", "Webinar", "General", 1,
    "https://www.securityweek.com/events/",
    "Weekly cybersecurity industry updates and training"⟩]

/-- `get_recommendations` (lines 22-44).  The ISC²-specific list comes
from live scraping, so it is a parameter `isc2_fetched`; `raised` models
whether anything in the `try` raised, in which case the gathered list is
replaced by the fallback list.  The certification name is never read by
the source.  The final `[:10]` caps the result at ten entries. -/
def get_recommendations (_certification_name authority : String)
    (isc2_fetched : List Recommendation) (raised : Bool) :
    List Recommendation :=
  let recommendations : List Recommendation :=
    if raised then get_fallback_recommendations
    else
      (if pyUpper authority = "ISC²" then isc2_fetched
       else if pyUpper authority = "EC-COUNCIL" then eccouncil_recommendations
       else if pyUpper authority = "COMPTIA" then comptia_recommendations
       else if pyUpper authority = "OFFENSIVE SECURITY" then
         offsec_recommendations
       else []) ++ general_security_recommendations
  recommendations.take 10

/-- A type-confused input for the error path: the `cpe_value` entry holds
the string `"ten"` instead of a number. -/
def malformed_activity : PyActivityData :=
  ⟨some (.pstr "webinar"), some (.pstr "CompTIA"), some (.pstr "ten"), none⟩

/-- Whether an `Except` outcome is a raised exception. -/
def exceptRaised {ε α : Type} : Except ε α → Bool
  | .error _ => true
  | .ok _ => false

/-! ## Helper lemmas -/

/-- The staged decomposition is definitionally the source-shaped
`verify_activity`. -/
theorem verify_activity_eq_stages (a : ActivityData) :
    verify_activity a = file_stage a (web_stage a (rules_stage a)) := rfl


/-- The ASCII case map is idempotent. -/
theorem char_toLower_idem (c : Char) : c.toLower.toLower = c.toLower := by
  simp only [Char.toLower]
  by_cases h : c.toNat ≥ 65 ∧ c.toNat ≤ 90
  · rw [if_pos h]
    have hv : Nat.isValidChar (c.toNat + 32) := Or.inl (by omega)
    have ht : (Char.ofNat (c.toNat + 32)).toNat = c.toNat + 32 := by
      rw [Char.ofNat, dif_pos hv]; rfl
    rw [if_neg (by rw [ht]; omega)]
  · rw [if_neg h, if_neg h]

/-- Lower-casing a string twice equals lower-casing it once. -/
theorem pyLower_idem (s : String) : pyLower (pyLower s) = pyLower s := by
  have hf : Char.toLower ∘ Char.toLower = Char.toLower := funext char_toLower_idem
  simp [pyLower, List.map_map, hf]

/-- The classifier lower-cases internally, so it is insensitive to a prior
lower-casing (in `verify_activity` it receives the already lowered
description). -/
theorem classify_pyLower (s : String) :
    classify_activity_type (pyLower s) = classify_activity_type s := by
  simp only [classify_activity_type, pyLower_idem]

/-- A string whose character list is nonempty is not `""`. -/
theorem ne_empty_of_data_ne_nil {s : String} (h : s.data ≠ []) : s ≠ "" := by
  intro he; exact h (by rw [he])

/-- Appending to a nonempty string stays nonempty. -/
theorem append_ne_empty_left {s : String} (t : String) (h : s.data ≠ []) :
    s ++ t ≠ "" := by
  intro he
  have hd : s.data ++ t.data = [] := by
    have hc := congrArg String.data he
    simpa using hc
  exact h (List.append_eq_nil.mp hd).1

/-- The web-verification result is `verified` exactly when a provider name
occurs in the lower-cased description. -/
theorem web_verified_eq_provider_recognized (a : ActivityData) :
    (attempt_web_verification a).verified = provider_recognized a.description := by
  simp only [attempt_web_verification, provider_recognized, verify_sans_activity,
    verify_coursera_activity, verify_udemy_activity, verify_cybrary_activity,
    List.any_cons, List.any_nil]
  by_cases h1 : strContains (pyLower a.description) "sans" <;>
    by_cases h2 : strContains (pyLower a.description) "coursera" <;>
      by_cases h3 : strContains (pyLower a.description) "udemy" <;>
        by_cases h4 : strContains (pyLower a.description) "cybrary" <;>
          by_cases h5 : strContains (pyLower a.description) "pluralsight" <;>
            by_cases h6 : strContains (pyLower a.description) "linkedin learning" <;>
              by_cases h7 : strContains (pyLower a.description) "edx" <;>
                simp [h1, h2, h3, h4, h5, h6, h7]

/-- When the web-verification result is `verified`, its method is one of the
two provider methods and its notes are one of five fixed nonempty strings. -/
theorem web_verified_method_notes (a : ActivityData)
    (h : (attempt_web_verification a).verified = true) :
    (attempt_web_verification a).verification_method ≠ "manual" ∧
      (attempt_web_verification a).verification_notes ≠ "" := by
  simp only [attempt_web_verification, verify_sans_activity,
    verify_coursera_activity, verify_udemy_activity, verify_cybrary_activity] at *
  by_cases h1 : strContains (pyLower a.description) "sans" <;>
    by_cases h2 : strContains (pyLower a.description) "coursera" <;>
      by_cases h3 : strContains (pyLower a.description) "udemy" <;>
        by_cases h4 : strContains (pyLower a.description) "cybrary" <;>
          by_cases h5 : ["pluralsight", "linkedin learning", "edx"].any
              (fun provider => strContains (pyLower a.description) provider) <;>
            simp_all


/-- The suggested value after phase 1: the rule value when a rule exists,
the declared value otherwise. -/
theorem rules_stage_suggested (a : ActivityData) :
    (rules_stage a).suggested_cpe_value =
      match lookupRule a.authority (classify_activity_type (pyLower a.description)) with
      | some v => v
      | none => a.cpe_value := by
  unfold rules_stage
  cases hr : lookupRule a.authority (classify_activity_type (pyLower a.description)) <;>
    simp [hr]
  split <;> simp

/-- Phase 1 records whether a rule was found. -/
theorem rules_stage_applied (a : ActivityData) :
    (rules_stage a).authority_rules_applied =
      (lookupRule a.authority (classify_activity_type (pyLower a.description))).isSome := by
  unfold rules_stage
  cases hr : lookupRule a.authority (classify_activity_type (pyLower a.description)) <;>
    simp [hr]
  split <;> simp

/-- Phase 1 verdict: verified exactly when a rule exists and the declared
value is within 50% of it. -/
theorem rules_stage_verified (a : ActivityData) :
    (rules_stage a).verified =
      match lookupRule a.authority (classify_activity_type (pyLower a.description)) with
      | some v => decide (|a.cpe_value - v| ≤ v * (1/2))
      | none => false := by
  unfold rules_stage
  cases hr : lookupRule a.authority (classify_activity_type (pyLower a.description)) <;>
    simp [hr]
  split <;> simp_all

/-- Phase 1 method: `authority_rules` when it verified, `manual` otherwise. -/
theorem rules_stage_method (a : ActivityData) :
    (rules_stage a).verification_method =
      (if (rules_stage a).verified then "authority_rules" else "manual") := by
  unfold rules_stage
  cases hr : lookupRule a.authority (classify_activity_type (pyLower a.description)) <;>
    simp [hr]
  split <;> simp

/-- If the left part of an append has nonempty data, so does the append. -/
theorem data_append_ne_nil_left {s : String} (t : String) (h : s.data ≠ []) :
    (s ++ t).data ≠ [] := by
  rw [String.data_append]
  intro hh
  exact h (List.append_eq_nil.mp hh).1

/-- Phase 1 notes are nonempty exactly when a rule was found. -/
theorem rules_stage_notes (a : ActivityData) :
    ((rules_stage a).verification_notes ≠ "") =
      (lookupRule a.authority (classify_activity_type (pyLower a.description))).isSome := by
  unfold rules_stage
  cases hr : lookupRule a.authority (classify_activity_type (pyLower a.description)) <;>
    simp [hr]
  split <;>
    (apply ne_empty_of_data_ne_nil
     repeat apply data_append_ne_nil_left
     decide)

/-- If the right part of an append has nonempty data, so does the append. -/
theorem data_append_ne_nil_right (s : String) {t : String} (h : t.data ≠ []) :
    (s ++ t).data ≠ [] := by
  rw [String.data_append]
  intro hh
  exact h (List.append_eq_nil.mp hh).2

/-- Phase 2 never touches the suggested value. -/
theorem web_stage_suggested (a : ActivityData) (r : VerificationResult) :
    (web_stage a r).suggested_cpe_value = r.suggested_cpe_value := by
  unfold web_stage
  by_cases h : (attempt_web_verification a).verified <;> simp [h]

/-- Phase 2 never touches the rules-applied flag. -/
theorem web_stage_applied (a : ActivityData) (r : VerificationResult) :
    (web_stage a r).authority_rules_applied = r.authority_rules_applied := by
  unfold web_stage
  by_cases h : (attempt_web_verification a).verified <;> simp [h]

/-- Phase 2 verdict: verified when either the web result or the incoming
verdict is. -/
theorem web_stage_verified (a : ActivityData) (r : VerificationResult) :
    (web_stage a r).verified =
      ((attempt_web_verification a).verified || r.verified) := by
  unfold web_stage
  by_cases h : (attempt_web_verification a).verified <;> simp [h]

/-- Phase 2 method: the web method when the web result verified, otherwise
unchanged. -/
theorem web_stage_method (a : ActivityData) (r : VerificationResult) :
    (web_stage a r).verification_method =
      (if (attempt_web_verification a).verified then
        (attempt_web_verification a).verification_method
      else r.verification_method) := by
  unfold web_stage
  by_cases h : (attempt_web_verification a).verified <;> simp [h]

/-- Phase 2 notes: the web notes when the web result verified, otherwise
unchanged. -/
theorem web_stage_notes (a : ActivityData) (r : VerificationResult) :
    (web_stage a r).verification_notes =
      (if (attempt_web_verification a).verified then
        (attempt_web_verification a).verification_notes
      else r.verification_notes) := by
  unfold web_stage
  by_cases h : (attempt_web_verification a).verified <;> simp [h]

/-- Phase 3 only touches `file_verified` and the notes. -/
theorem file_stage_frame (a : ActivityData) (r : VerificationResult) :
    (file_stage a r).verified = r.verified ∧
      (file_stage a r).verification_method = r.verification_method ∧
      (file_stage a r).suggested_cpe_value = r.suggested_cpe_value ∧
      (file_stage a r).authority_rules_applied = r.authority_rules_applied := by
  unfold file_stage
  cases hp : a.proof_file <;> simp
  split <;> simp

/-- `_verify_proof_file` always produces nonempty notes. -/
theorem verify_proof_file_notes_ne (s : String) :
    (verify_proof_file s).notes ≠ "" := by
  unfold verify_proof_file
  split <;> simp

/-- Phase 3 notes: unchanged for a falsy proof file, extended by a nonempty
`". File: "` suffix for a truthy one. -/
theorem file_stage_notes (a : ActivityData) (r : VerificationResult) :
    (pyTruthyFile a.proof_file = false ∧
        (file_stage a r).verification_notes = r.verification_notes) ∨
      (pyTruthyFile a.proof_file = true ∧
        (file_stage a r).verification_notes ≠ "") := by
  unfold file_stage pyTruthyFile
  cases hp : a.proof_file with
  | none => exact Or.inl ⟨rfl, rfl⟩
  | some fp =>
    by_cases hfp : fp = ""
    · subst hfp; exact Or.inl ⟨by simp, by simp⟩
    · refine Or.inr ⟨by simp [hfp], ?_⟩
      have hn := verify_proof_file_notes_ne fp
      simp only [hfp, if_pos, ne_eq, hn, not_false_eq_true, ite_true, if_true]
      apply ne_empty_of_data_ne_nil
      apply data_append_ne_nil_left
      apply data_append_ne_nil_right
      decide

/-- The final suggested value: the rule value when a rule exists for the
authority and classified category, the declared value otherwise. -/
theorem verify_activity_suggested (a : ActivityData) :
    (verify_activity a).suggested_cpe_value =
      match lookupRule a.authority (classify_activity_type a.description) with
      | some v => v
      | none => a.cpe_value := by
  rw [verify_activity_eq_stages, (file_stage_frame a _).2.2.1,
    web_stage_suggested, rules_stage_suggested, classify_pyLower]

/-- The final rules-applied flag records whether a rule was found. -/
theorem verify_activity_applied (a : ActivityData) :
    (verify_activity a).authority_rules_applied =
      (lookupRule a.authority (classify_activity_type a.description)).isSome := by
  rw [verify_activity_eq_stages, (file_stage_frame a _).2.2.2,
    web_stage_applied, rules_stage_applied, classify_pyLower]

/-- The final verdict: verified when a provider is recognized or the
authority-rule check verified. -/
theorem verify_activity_verified (a : ActivityData) :
    (verify_activity a).verified =
      (provider_recognized a.description || (rules_stage a).verified) := by
  rw [verify_activity_eq_stages, (file_stage_frame a _).1,
    web_stage_verified, web_verified_eq_provider_recognized]

/-- The final method: the web method when a provider is recognized,
otherwise the phase-1 method. -/
theorem verify_activity_method (a : ActivityData) :
    (verify_activity a).verification_method =
      (if provider_recognized a.description then
        (attempt_web_verification a).verification_method
      else (rules_stage a).verification_method) := by
  rw [verify_activity_eq_stages, (file_stage_frame a _).2.1,
    web_stage_method, web_verified_eq_provider_recognized]

/-! ## Claim theorems -/

/-- C1: For every activity input, when a rule is defined for the
(authority, classified category) pair, the suggested value returned by
`verify_activity` lies within `[rule.min, rule.max]` — where the code's
rule carries a single point value `v`, so its minimum and maximum
coincide at `v` — with the clamping behaviour (a declared value below the
minimum is raised to it, one above the maximum is capped to it, and one
inside the interval passes through unchanged); when no rule is defined,
the suggested value equals the declared value unchanged. -/
theorem suggested_value_rule_bounds (a : ActivityData) :
    (∀ v : ℚ,
      lookupRule a.authority (classify_activity_type a.description) = some v →
        v ≤ (verify_activity a).suggested_cpe_value ∧
        (verify_activity a).suggested_cpe_value ≤ v ∧
        (a.cpe_value < v → (verify_activity a).suggested_cpe_value = v) ∧
        (v < a.cpe_value → (verify_activity a).suggested_cpe_value = v) ∧
        (v ≤ a.cpe_value → a.cpe_value ≤ v →
          (verify_activity a).suggested_cpe_value = a.cpe_value)) ∧
    (lookupRule a.authority (classify_activity_type a.description) = none →
      (verify_activity a).suggested_cpe_value = a.cpe_value) := by
  have hs := verify_activity_suggested a
  constructor
  · intro v hv
    rw [hv] at hs
    exact ⟨le_of_eq hs.symm, le_of_eq hs, fun _ => hs, fun _ => hs,
      fun h1 h2 => by rw [hs, le_antisymm h2 h1]⟩
  · intro hn
    rw [hn] at hs
    exact hs

/-- C2 counterexample: the input `{description: "personal reading",
declaredValue: 1.0, authority: "CompTIA", hasProof: false}` has no
recognized provider and no proof, yet `verify_activity` returns
`verified=true` with `method="authority_rules"` (the CompTIA/self-study
rule value 1.0 matches the declared value), refuting the claimed
`verified=false`, `method="manual"`. -/
theorem no_proof_unrecognized_counterexample :
    provider_recognized "personal reading" = false ∧
    pyTruthyFile (none : Option String) = false ∧
    (verify_activity ⟨"personal reading", "CompTIA", 1, none⟩).verified = true ∧
    (verify_activity
        ⟨"personal reading", "CompTIA", 1, none⟩).verification_method =
      "authority_rules" := by
  with_unfolding_all decide

/-- C2 (amended): for every activity input with `hasProof=false`, a
description containing no recognized provider name, and which the
authority-rules check does not verify (no rule is defined for the
authority and classified category, or the declared value differs from
the rule value by more than 50% of it), `verify_activity` returns
`verified=false` and `method="manual"`. -/
theorem no_proof_unrecognized_manual (a : ActivityData)
    (_hp : a.proof_file = none)
    (hw : provider_recognized a.description = false)
    (hr : (rules_stage a).verified = false) :
    (verify_activity a).verified = false ∧
    (verify_activity a).verification_method = "manual" := by
  constructor
  · rw [verify_activity_verified, hw, hr]
    rfl
  · rw [verify_activity_method, hw, if_neg (by simp), rules_stage_method, hr]
    rfl

/-- C2 witness: a concrete no-proof, no-provider, no-rule input on which
the amended claim applies. -/
theorem no_proof_unrecognized_manual_witness :
    (verify_activity ⟨"personal reading", "Unknown", 1, none⟩).verified = false ∧
    (verify_activity
        ⟨"personal reading", "Unknown", 1, none⟩).verification_method =
      "manual" :=
  no_proof_unrecognized_manual ⟨"personal reading", "Unknown", 1, none⟩
    rfl (by with_unfolding_all decide) (by with_unfolding_all decide)

/-- C3 counterexample: on `{description: "SANS training course on
incident response", declaredValue: 0.2, authority: "ISC²", hasProof:
true}`, `verify_activity` does not return the claimed suggested value
0.5: the rule table's ISC² key is the five-character mojibake string, so
no rule matches the four-character authority `"ISC²"` and the declared
value 0.2 passes through unchanged. -/
theorem sans_isc2_scenario_counterexample :
    lookupRule "ISC²"
      (classify_activity_type "SANS training course on incident response") =
        none ∧
    (verify_activity
        ⟨"SANS training course on incident response", "ISC²", 1/5,
          some "proof.pdf"⟩).suggested_cpe_value = 1/5 ∧
    ¬(verify_activity
        ⟨"SANS training course on incident response", "ISC²", 1/5,
          some "proof.pdf"⟩).suggested_cpe_value = 1/2 := by
  with_unfolding_all decide

/-- C3 (amended): on that input `verify_activity` returns
`suggestedValue=0.2` (the declared value unchanged — the engine's ISC²
rule key does not equal the authority string, so no rule applies),
`verified=true`, and `method="provider_recognition"`. -/
theorem sans_isc2_scenario_verdict :
    (verify_activity
        ⟨"SANS training course on incident response", "ISC²", 1/5,
          some "proof.pdf"⟩).suggested_cpe_value = 1/5 ∧
    (verify_activity
        ⟨"SANS training course on incident response", "ISC²", 1/5,
          some "proof.pdf"⟩).verified = true ∧
    (verify_activity
        ⟨"SANS training course on incident response", "ISC²", 1/5,
          some "proof.pdf"⟩).verification_method = "provider_recognition" := by
  with_unfolding_all decide

/-- C4 counterexample: on `{description: "personal reading",
declaredValue: 1.0, authority: "CompTIA", hasProof: false}`,
`verify_activity` returns `verified=true`, not the claimed
`verified=false`/`method="manual"`: the description classifies as
self-study, the CompTIA/self-study rule value is 1.0, and the declared
value is within 50% of it. -/
theorem personal_reading_comptia_counterexample :
    (verify_activity ⟨"personal reading", "CompTIA", 1, none⟩).verified =
        true ∧
    ¬(verify_activity
        ⟨"personal reading", "CompTIA", 1, none⟩).verification_method =
      "manual" := by
  with_unfolding_all decide

/-- C4 (amended): on that input `verify_activity` returns
`suggestedValue=1.0`, `verified=true`, and `method="authority_rules"`. -/
theorem personal_reading_comptia_verdict :
    (verify_activity
        ⟨"personal reading", "CompTIA", 1, none⟩).suggested_cpe_value = 1 ∧
    (verify_activity ⟨"personal reading", "CompTIA", 1, none⟩).verified =
        true ∧
    (verify_activity
        ⟨"personal reading", "CompTIA", 1, none⟩).verification_method =
      "authority_rules" := by
  with_unfolding_all decide

/-- C6: for every activity input, a verdict with `verified=true` has a
method other than `"manual"`. -/
theorem verified_implies_not_manual (a : ActivityData)
    (h : (verify_activity a).verified = true) :
    (verify_activity a).verification_method ≠ "manual" := by
  rw [verify_activity_method]
  by_cases hp : provider_recognized a.description = true
  · rw [if_pos hp]
    refine (web_verified_method_notes a ?_).1
    rw [web_verified_eq_provider_recognized, hp]
  · rw [if_neg hp, rules_stage_method]
    rw [verify_activity_verified] at h
    have hb : provider_recognized a.description = false :=
      Bool.not_eq_true _ ▸ (by simpa using hp)
    rw [hb, Bool.false_or] at h
    rw [h]
    simp

/-- C6 witness: a concrete verified input. -/
theorem verified_implies_not_manual_witness :
    (verify_activity ⟨"webinar", "CompTIA", 1/2, none⟩).verification_method ≠
      "manual" :=
  verified_implies_not_manual ⟨"webinar", "CompTIA", 1/2, none⟩
    (by with_unfolding_all decide)

/-- C9: when the rule table has an entry for the authority and the
classified activity type, `verify_activity` suggests exactly that entry's
single fixed value; and — unless a recognized provider overrides the
verdict — it sets `verified=true` with `method="authority_rules"` exactly
when the declared value is within 50% of the rule value. -/
theorem authority_rule_fixed_value (a : ActivityData) (v : ℚ)
    (h : lookupRule a.authority (classify_activity_type a.description) =
      some v) :
    (verify_activity a).suggested_cpe_value = v ∧
    (provider_recognized a.description = false →
      (((verify_activity a).verified = true ∧
        (verify_activity a).verification_method = "authority_rules") ↔
          |a.cpe_value - v| ≤ v * (1/2))) := by
  constructor
  · rw [verify_activity_suggested, h]
  · intro hw
    have hv := verify_activity_verified a
    rw [hw, Bool.false_or, rules_stage_verified, classify_pyLower, h] at hv
    have hm := verify_activity_method a
    rw [hw, if_neg (by simp), rules_stage_method, rules_stage_verified,
      classify_pyLower, h] at hm
    constructor
    · rintro ⟨h1, _⟩
      rw [hv] at h1
      exact of_decide_eq_true h1
    · intro hle
      have hd : decide (|a.cpe_value - v| ≤ v * (1/2)) = true :=
        decide_eq_true hle
      constructor
      · rw [hv]
        exact hd
      · rw [hm]
        exact if_pos hd

/-- C9 witness: the CompTIA/webinar rule value 0.5 with a matching
declared value. -/
theorem authority_rule_fixed_value_witness :
    (verify_activity ⟨"webinar", "CompTIA", 3/4, none⟩).suggested_cpe_value =
      1/2 :=
  (authority_rule_fixed_value ⟨"webinar", "CompTIA", 3/4, none⟩ (1/2)
    (by with_unfolding_all decide)).1

/-- C5: for every description, `classify` returns the first category in
the fixed priority order webinar, training, conference, course,
certification, volunteer whose keyword set has at least one
case-insensitive substring hit, and `self-study` when none matches
(`classify_spec` is that first-match rule stated over the spec's ordered
keyword table); in particular `"webinar workshop"` classifies as
`webinar`, not `training`. -/
theorem classify_first_priority_match :
    (∀ d : String, classify_activity_type d = classify_spec d) ∧
    classify_activity_type "webinar workshop" = "webinar" := by
  constructor
  · intro d
    unfold classify_activity_type classify_spec classifier_keywords word_in_any
    by_cases h1 : ["webinar", "seminar", "presentation"].any
        (fun w => strContains (pyLower d) w) <;>
      by_cases h2 : ["training", "workshop", "bootcamp"].any
          (fun w => strContains (pyLower d) w) <;>
        by_cases h3 : ["conference", "symposium", "summit"].any
            (fun w => strContains (pyLower d) w) <;>
          by_cases h4 : ["course", "class", "curriculum"].any
              (fun w => strContains (pyLower d) w) <;>
            by_cases h5 : ["certification", "exam", "test"].any
                (fun w => strContains (pyLower d) w) <;>
              by_cases h6 : ["volunteer", "community", "mentor"].any
                  (fun w => strContains (pyLower d) w) <;>
                simp [List.find?, h1, h2, h3, h4, h5, h6]
  · with_unfolding_all decide

/-- C7 counterexample: on an input with no matching rule (unknown
authority), no recognized provider and no proof file, the verdict's notes
are the empty string, refuting "never empty". -/
theorem notes_empty_counterexample :
    (verify_activity ⟨"read a book", "Unknown", 1, none⟩).verification_notes =
      "" := by
  with_unfolding_all decide

/-- C7 (amended): the verdict's notes are non-empty exactly when an
authority rule was found, a provider was recognized, or a (truthy) proof
file was attached; otherwise they are empty. -/
theorem notes_nonempty_iff (a : ActivityData) :
    ((verify_activity a).verification_notes ≠ "") ↔
      ((lookupRule a.authority
          (classify_activity_type a.description)).isSome = true ∨
        provider_recognized a.description = true ∨
        pyTruthyFile a.proof_file = true) := by
  rw [verify_activity_eq_stages]
  rcases file_stage_notes a (web_stage a (rules_stage a)) with ⟨hf, he⟩ | ⟨hf, hne⟩
  · rw [he, web_stage_notes]
    by_cases hw : (attempt_web_verification a).verified = true
    · have hpr : provider_recognized a.description = true := by
        rw [← web_verified_eq_provider_recognized]; exact hw
      rw [if_pos hw]
      exact ⟨fun _ => Or.inr (Or.inl hpr),
        fun _ => (web_verified_method_notes a hw).2⟩
    · have hpr : provider_recognized a.description = false := by
        rw [← web_verified_eq_provider_recognized]
        exact Bool.not_eq_true _ ▸ (by simpa using hw)
      rw [if_neg hw]
      have hr := rules_stage_notes a
      rw [classify_pyLower] at hr
      rw [hr]
      constructor
      · exact fun h => Or.inl h
      · rintro (h | h | h)
        · exact h
        · rw [hpr] at h; cases h
        · rw [hf] at h; cases h
  · exact ⟨fun _ => Or.inr (Or.inr hf), fun _ => hne⟩

/-- C8 counterexample: on `malformed_activity` the `try` body raises (the
string `cpe_value` cannot be subtracted) after the CompTIA/webinar rule
value 0.5 was already written into the dict, so the degraded verdict's
suggested value is the rule value 0.5, not the declared value `"ten"`. -/
theorem error_path_counterexample :
    exceptRaised (verify_activity_try malformed_activity) = true ∧
    (verify_activity_dyn malformed_activity).verified = false ∧
    (verify_activity_dyn malformed_activity).verification_method = "manual" ∧
    (verify_activity_dyn malformed_activity).suggested_cpe_value =
      .pnum (1/2) ∧
    malformed_activity.cpe_value.getD (.pnum 1) = .pstr "ten" ∧
    ¬(verify_activity_dyn malformed_activity).suggested_cpe_value =
      .pstr "ten" := by
  with_unfolding_all decide

/-- C8 (amended): `verify_activity` never raises — `verify_activity_dyn`
returns a verdict for every dynamically-typed input by construction — and
whenever the `try` body raises, the returned verdict has `verified=false`,
`method="manual"` and the error note; its suggested value equals the
declared value unless an authority rule had already been applied before
the error, in which case it remains the rule value. -/
theorem error_path_degraded (a : PyActivityData) (e : String)
    (r : PyVerificationResult)
    (h : verify_activity_try a = .error (e, r)) :
    (verify_activity_dyn a).verified = false ∧
    (verify_activity_dyn a).verification_method = "manual" ∧
    ((verify_activity_dyn a).authority_rules_applied = false →
      (verify_activity_dyn a).suggested_cpe_value =
        a.cpe_value.getD (.pnum 1)) ∧
    (verify_activity_dyn a).verification_notes =
      "Verification error: " ++ e := by
  have hd : verify_activity_dyn a =
      { r with verification_notes := "Verification error: " ++ e } := by
    unfold verify_activity_dyn; rw [h]
  suffices hr : r.verified = false ∧ r.verification_method = "manual" ∧
      (r.authority_rules_applied = false →
        r.suggested_cpe_value = a.cpe_value.getD (.pnum 1)) by
    rw [hd]
    exact ⟨hr.1, hr.2.1, fun hap => hr.2.2 (by simpa using hap), rfl⟩
  unfold verify_activity_try at h
  cases hlo : pyLowerE (a.description.getD (.pstr "")) with
  | error e0 =>
    simp only [hlo] at h
    obtain ⟨he, hr0⟩ := Prod.mk.injEq .. |>.mp (Except.error.injEq .. |>.mp h)
    rw [← hr0]
    exact ⟨rfl, rfl, fun _ => rfl⟩
  | ok desc =>
    simp only [hlo] at h
    cases hlr : lookupRuleV (a.authority.getD (.pstr ""))
        (classify_activity_type desc) with
    | some v =>
      simp only [hlr] at h
      cases hw : pyWithinHalfE (a.cpe_value.getD (.pnum 1)) v with
      | error e1 =>
        simp only [hw] at h
        obtain ⟨he, hr0⟩ :=
          Prod.mk.injEq .. |>.mp (Except.error.injEq .. |>.mp h)
        rw [← hr0]
        exact ⟨rfl, rfl, fun hap => by simp at hap⟩
      | ok b =>
        simp only [hw] at h
        cases b <;>
          simp only [attempt_web_verification_dynE, hlo] at h <;>
            cases hpt : pyTruthy (a.proof_file.getD .pnone) <;>
              simp [hpt] at h
    | none =>
      simp only [hlr] at h
      simp only [attempt_web_verification_dynE, hlo] at h
      cases hpt : pyTruthy (a.proof_file.getD .pnone) <;> simp [hpt] at h

/-- C8 witness: the degraded verdict on the concrete malformed input. -/
theorem error_path_degraded_witness :
    (verify_activity_dyn malformed_activity).verified = false ∧
    (verify_activity_dyn malformed_activity).verification_method =
      "manual" ∧
    ((verify_activity_dyn malformed_activity).authority_rules_applied =
        false →
      (verify_activity_dyn malformed_activity).suggested_cpe_value =
        malformed_activity.cpe_value.getD (.pnum 1)) ∧
    (verify_activity_dyn malformed_activity).verification_notes =
      "Verification error: " ++ "TypeError: unsupported operand" :=
  error_path_degraded malformed_activity "TypeError: unsupported operand"
    ⟨false, "manual", .pnum (1/2),
     "Applied CompTIA rules for webinar activities", true, none⟩
    (by with_unfolding_all rfl)

/-- C10: `get_recommendations` always returns at most ten
recommendations, and when gathering raises it returns exactly the fixed,
nonempty fallback list. -/
theorem recommendations_capped (certification_name authority : String)
    (isc2_fetched : List Recommendation) (raised : Bool) :
    (get_recommendations certification_name authority isc2_fetched
        raised).length ≤ 10 ∧
    (raised = true →
      get_recommendations certification_name authority isc2_fetched raised =
        get_fallback_recommendations ∧
      get_fallback_recommendations ≠ []) := by
  constructor
  · unfold get_recommendations
    exact List.length_take_le 10 _
  · intro hr
    refine ⟨?_, by simp [get_fallback_recommendations]⟩
    unfold get_recommendations
    rw [if_pos hr]
    rfl
